import Mathlib

/-!
Shallow embedding of the resilient WebSocket status-synchronization client of
PreVue (src/unnamed/part_008).  The file contains two implementations of the
`useWebSocket` hook (referred to below as variant 1, lines 1-934, and
variant 2, lines 934-1664); the definitions below are transcribed from those
sources, keeping the source names where Lean allows it.

JavaScript data is modelled as follows: a possibly-absent field becomes an
`Option`; a JS `Map` keyed by correlation id becomes an association list whose
`set` replaces the entry in place (JS `Map.set` keeps insertion order for an
existing key); a JS `Set` becomes a duplicate-free list in insertion order;
`Date.now()` / `new Date().toISOString()` / `Math.random()` become explicit
parameters.  Timer handles become `Bool` flags ("armed").
-/

namespace PreVue

/-- Configuration constant from `config` (part_008 lines 96-106 and 1029-1039). -/
def maxReconnectAttempts : Nat := 10

/-- Configuration constant `baseReconnectDelay` (1000 ms). -/
def baseReconnectDelay : ℚ := 1000

/-- Configuration constant `maxReconnectDelay` (30000 ms). -/
def maxReconnectDelay : ℚ := 30000

/-- Configuration constant `messageQueueSize` (100). -/
def messageQueueSize : Nat := 100

/-- Configuration constant `circuitBreakerThreshold` (5). -/
def circuitBreakerThreshold : Nat := 5

/-- The status field of `WebSocketStatusUpdate` (part_008 line 6). -/
inductive WSStatus
  | PENDING
  | IN_PROGRESS
  | COMPLETED
  | FAILED
deriving DecidableEq, Repr

/-- Source `WebSocketStatusUpdate` (part_008 lines 4-11).  The opaque server-defined
`data` payload is not modelled: no claim constrains its contents. -/
structure StatusRecord where
  correlationId : String
  status : WSStatus
  message : Option String
  error : Option String
  timestamp : String
deriving DecidableEq, Repr

/-- The Status Store: the `statusUpdates : Map<string, WebSocketStatusUpdate>`
react state, modelled as an association list in insertion order. -/
abbrev StatusStore := List (String × StatusRecord)

/-- JS `Map.set`: replace the entry in place if the key is present, otherwise
append at the end (JS `Map` iterates in insertion order). -/
def StatusStore.set : StatusStore → String → StatusRecord → StatusStore
  | [], k, v => [(k, v)]
  | (k', v') :: rest, k, v =>
    if k' = k then (k, v) :: rest else (k', v') :: StatusStore.set rest k v

/-- JS `Map.get`, returning `none` when the key is absent. -/
def StatusStore.get : StatusStore → String → Option StatusRecord
  | [], _ => none
  | (k', v') :: rest, k => if k' = k then some v' else StatusStore.get rest k

theorem StatusStore.get_set_self (s : StatusStore) (k : String) (v : StatusRecord) :
    (s.set k v).get k = some v := by
  induction s with
  | nil => simp [StatusStore.set, StatusStore.get]
  | cons hd tl ih =>
    obtain ⟨k', v'⟩ := hd
    by_cases h : k' = k
    · simp [StatusStore.set, StatusStore.get, h]
    · simp [StatusStore.set, StatusStore.get, h, ih]

theorem StatusStore.get_eq_none_iff (s : StatusStore) (k : String) :
    s.get k = none ↔ ∀ r : StatusRecord, (k, r) ∉ s := by
  induction s with
  | nil => simp [StatusStore.get]
  | cons hd tl ih =>
    obtain ⟨k', v'⟩ := hd
    by_cases h : k' = k
    · subst h
      simp only [StatusStore.get, if_pos rfl]
      constructor
      · intro h
        cases h
      · intro hall
        exact absurd (List.mem_cons_self _ _) (hall v')
    · simp only [StatusStore.get, if_neg h, ih, List.mem_cons]
      constructor
      · intro hall r hmem
        rcases hmem with hpair | htl
        · exact h (congrArg Prod.fst hpair).symm
        · exact hall r htl
      · intro hall r htl
        exact hall r (Or.inr htl)

/-- Source `getStatus` (part_008 lines 868-870 and 1530-1532):
`statusUpdates.get(correlationId) || null`; a record object is always truthy,
so this is exactly the map lookup. -/
def getStatus (s : StatusStore) (correlationId : String) : Option StatusRecord :=
  s.get correlationId

/-- Source `isStatusComplete` (part_008 lines 872-875 and 1537-1540). -/
def isStatusComplete (s : StatusStore) (correlationId : String) : Bool :=
  match getStatus s correlationId with
  | some r => r.status = WSStatus.COMPLETED ∨ r.status = WSStatus.FAILED
  | none => false

/-- Source `isStatusFailed` (part_008 lines 877-880 and 1545-1548). -/
def isStatusFailed (s : StatusStore) (correlationId : String) : Bool :=
  match getStatus s correlationId with
  | some r => r.status = WSStatus.FAILED
  | none => false

/-- The pieces of hook state touched by `clearCompletedOperations`: the Status
Store plus the two subscription registries (`pendingSubscriptionsRef`,
`correlationIdSubscriptionsRef`, part_008 lines 143-144). -/
structure SubsState where
  statusUpdates : StatusStore
  pendingSubscriptions : List String
  correlationIdSubscriptions : List String
deriving DecidableEq, Repr

/-- Source `clearCompletedOperations` (part_008 lines 904-912 and 1605-1615): copy the
map and delete every entry whose status is COMPLETED or FAILED.  Deleting from
a copy while iterating keeps the remaining entries in order, i.e. a filter. -/
def clearCompletedOperations (s : SubsState) : SubsState :=
  { s with
    statusUpdates := s.statusUpdates.filter
      (fun p => !(p.2.status = WSStatus.COMPLETED ∨ p.2.status = WSStatus.FAILED)) }

/-- C10: for a correlation id with no stored record, `getStatus` returns null
and `isStatusComplete` / `isStatusFailed` return false; for an id with a
stored record, `isStatusComplete` is true exactly when the stored status is
COMPLETED or FAILED, and `isStatusFailed` is true exactly when it is FAILED. -/
theorem getStatus_isComplete_isFailed_characterization
    (s : StatusStore) (cid : String) :
    (getStatus s cid = none ↔ ∀ r : StatusRecord, (cid, r) ∉ s)
    ∧ (getStatus s cid = none →
        isStatusComplete s cid = false ∧ isStatusFailed s cid = false)
    ∧ (∀ r : StatusRecord, getStatus s cid = some r →
        ((isStatusComplete s cid = true ↔
            (r.status = WSStatus.COMPLETED ∨ r.status = WSStatus.FAILED))
         ∧ (isStatusFailed s cid = true ↔ r.status = WSStatus.FAILED))) := by
  refine ⟨StatusStore.get_eq_none_iff s cid, ?_, ?_⟩
  · intro h
    constructor <;> simp [isStatusComplete, isStatusFailed, h]
  · intro r h
    constructor <;> simp [isStatusComplete, isStatusFailed, h]

/-- A concrete FAILED record, used to instantiate the C10 characterization. -/
def recFailedW : StatusRecord :=
  { correlationId := "op-a", status := WSStatus.FAILED, message := some "boom",
    error := some "err", timestamp := "2024-01-01T00:00:00Z" }

/-- A concrete one-entry Status Store, used to instantiate the C10
characterization. -/
def storeW : StatusStore := [("op-a", recFailedW)]

/-- Witness for C10 at a concrete store: lookup misses behave as claimed, and
the stored FAILED record is reported both complete and failed. -/
theorem getStatus_isComplete_isFailed_characterization_witness :
    (isStatusComplete storeW "missing" = false ∧ isStatusFailed storeW "missing" = false)
    ∧ (isStatusComplete storeW "op-a" = true ↔
        (recFailedW.status = WSStatus.COMPLETED ∨ recFailedW.status = WSStatus.FAILED))
    ∧ (isStatusFailed storeW "op-a" = true ↔ recFailedW.status = WSStatus.FAILED) := by
  refine ⟨?_, ?_, ?_⟩
  · exact (getStatus_isComplete_isFailed_characterization storeW "missing").2.1 (by decide)
  · exact ((getStatus_isComplete_isFailed_characterization storeW "op-a").2.2
      recFailedW (by decide)).1
  · exact ((getStatus_isComplete_isFailed_characterization storeW "op-a").2.2
      recFailedW (by decide)).2

/-- C7: `clearCompletedOperations` removes exactly the Status Store entries
whose status is COMPLETED or FAILED, keeps every PENDING / IN_PROGRESS entry
unchanged, and does not modify the pending or subscribed correlation-id
registries. -/
theorem clearCompletedOperations_spec (s : SubsState) :
    ((clearCompletedOperations s).pendingSubscriptions = s.pendingSubscriptions)
    ∧ ((clearCompletedOperations s).correlationIdSubscriptions
        = s.correlationIdSubscriptions)
    ∧ (∀ (cid : String) (r : StatusRecord),
        (cid, r) ∈ (clearCompletedOperations s).statusUpdates ↔
          ((cid, r) ∈ s.statusUpdates
            ∧ ¬(r.status = WSStatus.COMPLETED ∨ r.status = WSStatus.FAILED))) := by
  refine ⟨rfl, rfl, ?_⟩
  intro cid r
  simp [clearCompletedOperations, List.mem_filter]

/-- Source `platformInfo.isWindows` (variant 1, lines 147-157): constantly false for
React Native. -/
def platformIsWindows : Bool := false

/-- Source `platformInfo.isSafari` (variant 1, lines 147-157): constantly false for
React Native. -/
def platformIsSafari : Bool := false

/-- Source `calculateReconnectDelay` (variant 1, lines 169-184).  `Math.random()`
becomes the explicit parameter `rand ∈ [0,1]`; arithmetic is modelled over ℚ
(all quantities involved are exactly representable doubles). -/
def calculateReconnectDelay (attempt : Nat) (rand : ℚ) : ℚ :=
  let exponentialDelay :=
    min (baseReconnectDelay * 2 ^ (attempt - 1)) maxReconnectDelay
  let adjusted :=
    if platformIsWindows then exponentialDelay * (3 / 2)
    else if platformIsSafari then exponentialDelay * (6 / 5)
    else exponentialDelay
  let jitter := rand * (1 / 10) * adjusted
  adjusted + jitter

/-- Source `calculateReconnectDelay` (variant 2, lines 1075-1084): ±12.5 % jitter
(`exponentialDelay * 0.25 * (rand - 0.5)`) and a 100 ms floor. -/
def calculateReconnectDelayV2 (attempt : Nat) (rand : ℚ) : ℚ :=
  let exponentialDelay :=
    min (baseReconnectDelay * 2 ^ (attempt - 1)) maxReconnectDelay
  let jitter := exponentialDelay * (1 / 4) * (rand - 1 / 2)
  max 100 (exponentialDelay + jitter)

/-- C4: for every attempt `n ≥ 1` and every jitter draw `rand ∈ [0,1]`, the
reconnect delay equals `min(base * 2^(n-1), max)` plus a bounded jitter, is
non-decreasing in `n`, and never exceeds `max` plus the jitter bound
(one tenth of `max` for variant 1, one eighth of `max` for variant 2). -/
theorem calculateReconnectDelay_spec (n : Nat) (r : ℚ)
    (hn : 1 ≤ n) (hr0 : 0 ≤ r) (hr1 : r ≤ 1) :
    (calculateReconnectDelay n r
       = min (baseReconnectDelay * 2 ^ (n - 1)) maxReconnectDelay
         + r * (1 / 10) * min (baseReconnectDelay * 2 ^ (n - 1)) maxReconnectDelay)
    ∧ calculateReconnectDelay n r ≤ calculateReconnectDelay (n + 1) r
    ∧ calculateReconnectDelay n r ≤ maxReconnectDelay + (1 / 10) * maxReconnectDelay
    ∧ calculateReconnectDelayV2 n r ≤ calculateReconnectDelayV2 (n + 1) r
    ∧ calculateReconnectDelayV2 n r ≤ maxReconnectDelay + (1 / 8) * maxReconnectDelay := by
  have he0 : ∀ m : Nat,
      (0 : ℚ) ≤ min (baseReconnectDelay * 2 ^ (m - 1)) maxReconnectDelay := by
    intro m
    refine le_min ?_ ?_
    · have h2 : (0 : ℚ) ≤ 2 ^ (m - 1) := by positivity
      simp only [baseReconnectDelay]
      positivity
    · norm_num [maxReconnectDelay]
  have hemax : ∀ m : Nat,
      min (baseReconnectDelay * 2 ^ (m - 1)) maxReconnectDelay ≤ maxReconnectDelay :=
    fun m => min_le_right _ _
  have hmono : ∀ m : Nat,
      min (baseReconnectDelay * 2 ^ (m - 1)) maxReconnectDelay
        ≤ min (baseReconnectDelay * 2 ^ (m + 1 - 1)) maxReconnectDelay := by
    intro m
    refine min_le_min ?_ le_rfl
    refine mul_le_mul_of_nonneg_left ?_ (by norm_num [baseReconnectDelay])
    refine pow_le_pow_right₀ (by norm_num) ?_
    omega
  refine ⟨?_, ?_, ?_, ?_, ?_⟩
  · simp [calculateReconnectDelay, platformIsWindows, platformIsSafari]
  · simp only [calculateReconnectDelay, platformIsWindows, platformIsSafari,
      Bool.false_eq_true, if_false]
    have hj : r * (1 / 10) * min (baseReconnectDelay * 2 ^ (n - 1)) maxReconnectDelay
        ≤ r * (1 / 10) * min (baseReconnectDelay * 2 ^ (n + 1 - 1)) maxReconnectDelay := by
      refine mul_le_mul_of_nonneg_left (hmono n) ?_
      positivity
    exact add_le_add (hmono n) hj
  · simp only [calculateReconnectDelay, platformIsWindows, platformIsSafari,
      Bool.false_eq_true, if_false]
    nlinarith [he0 n, hemax n]
  · simp only [calculateReconnectDelayV2]
    have hc : (0 : ℚ) ≤ 1 + 1 / 4 * (r - 1 / 2) := by nlinarith
    have hprod := mul_le_mul_of_nonneg_right (hmono n) hc
    refine max_le_max le_rfl ?_
    nlinarith [hprod]
  · simp only [calculateReconnectDelayV2]
    refine max_le (by norm_num [maxReconnectDelay]) ?_
    nlinarith [he0 n, hemax n]

/-- Witness for C4 at attempt 3 with jitter draw 1/2: the delay evaluates to
4200 ms, is below the next attempt's delay and below the cap. -/
theorem calculateReconnectDelay_spec_witness :
    (1 ≤ 3) ∧ (0 ≤ (1 / 2 : ℚ)) ∧ ((1 / 2 : ℚ) ≤ 1)
    ∧ calculateReconnectDelay 3 (1 / 2) = 4200
    ∧ calculateReconnectDelay 3 (1 / 2) ≤ calculateReconnectDelay 4 (1 / 2)
    ∧ calculateReconnectDelay 3 (1 / 2)
        ≤ maxReconnectDelay + (1 / 10) * maxReconnectDelay := by
  have h := calculateReconnectDelay_spec 3 (1 / 2) (by norm_num) (by norm_num)
    (by norm_num)
  refine ⟨by norm_num, by norm_num, by norm_num, ?_, h.2.1, h.2.2.1⟩
  rw [h.1]
  norm_num [baseReconnectDelay, maxReconnectDelay]

/-- Source `QueuedMessage` (part_008 lines 31-38 and 964-971).  The only messages ever
queued by either variant are `subscribe` control messages, whose `data` payload
is the list of correlation ids, so `data` is modelled as that list. -/
structure QueuedMessage where
  id : String
  type : String
  data : List String
  timestamp : Nat
  retryCount : Nat
  maxRetries : Nat
deriving DecidableEq, Repr

/-- Source `queueMessage` (variant 1, lines 223-240): push the new message at the
back, then drop the front (`shift()`, the oldest entry) whenever the length
exceeds `messageQueueSize`.  The generated `id`/`timestamp`/`retryCount`
fields are part of the `QueuedMessage` argument here. -/
def queueMessage (q : List QueuedMessage) (m : QueuedMessage) : List QueuedMessage :=
  let pushed := q ++ [m]
  if messageQueueSize < pushed.length then pushed.tail else pushed

/-- The queue push on variant 2's subscribe path (lines 1509-1519):
`messageQueueRef.current.push({...})` with no size check. -/
def subscribeQueuePushV2 (q : List QueuedMessage) (m : QueuedMessage) :
    List QueuedMessage :=
  q ++ [m]

/-- Decreasing measure for `processMessageQueueV2`: remaining retry budget
plus one for every queued message. -/
def queueMeasure (l : List QueuedMessage) : Nat :=
  l.foldr (fun m acc => (m.maxRetries + 1 - m.retryCount) + 1 + acc) 0

/-- Source `processMessageQueue` (variant 2, lines 1201-1227): repeatedly `shift()`
the front message and send it; on a send failure the message is put back at
the front with `retryCount` incremented as long as `retryCount < maxRetries`,
otherwise it is discarded.  `sendOk` tells whether the transport accepts a
given send attempt.  Returns the list of sent messages, in send order. -/
def processMessageQueueV2 (sendOk : QueuedMessage → Bool) :
    List QueuedMessage → List QueuedMessage
  | [] => []
  | m :: rest =>
    if sendOk m then
      m :: processMessageQueueV2 sendOk rest
    else if m.retryCount < m.maxRetries then
      processMessageQueueV2 sendOk ({ m with retryCount := m.retryCount + 1 } :: rest)
    else
      processMessageQueueV2 sendOk rest
termination_by l => queueMeasure l
decreasing_by
  · simp only [queueMeasure, List.foldr]
    omega
  · simp only [queueMeasure, List.foldr]
    omega
  · simp only [queueMeasure, List.foldr]
    omega

theorem processMessageQueueV2_all_ok (q : List QueuedMessage) :
    processMessageQueueV2 (fun _ => true) q = q := by
  induction q with
  | nil => simp [processMessageQueueV2]
  | cons m rest ih => simp [processMessageQueueV2, ih]

/-- C5 counterexample: the claim says the queue holds at most
`messageQueueSize` messages after every enqueue, but the variant-2 subscribe
path enqueues without any size check: pushing onto a 100-element queue leaves
101 elements. -/
theorem queue_bound_counterexample :
    messageQueueSize <
      (subscribeQueuePushV2
        (List.replicate 100
          { id := "old", type := "subscribe", data := ["x"], timestamp := 0,
            retryCount := 0, maxRetries := 3 })
        { id := "new", type := "subscribe", data := ["y"], timestamp := 1,
          retryCount := 0, maxRetries := 3 }).length := by
  simp [subscribeQueuePushV2, messageQueueSize]

/-- C5 (amended): variant 1's `queueMessage` keeps the queue at no more than
`messageQueueSize` messages, appends at the back when there is room, and drops
the oldest (front) entry when the enqueue would exceed the capacity; flushing
sends the queued messages in FIFO order.  The variant-2 subscribe-path enqueue
(`subscribeQueuePushV2`) does not enforce the bound. -/
theorem queueMessage_bounded_fifo (q : List QueuedMessage) (m : QueuedMessage)
    (hlen : q.length ≤ messageQueueSize) :
    (queueMessage q m).length ≤ messageQueueSize
    ∧ (q.length < messageQueueSize → queueMessage q m = q ++ [m])
    ∧ (q.length = messageQueueSize → queueMessage q m = q.tail ++ [m])
    ∧ processMessageQueueV2 (fun _ => true) (queueMessage q m)
        = queueMessage q m := by
  refine ⟨?_, ?_, ?_, processMessageQueueV2_all_ok _⟩
  · by_cases h : messageQueueSize < (q ++ [m]).length
    · have heq : queueMessage q m = (q ++ [m]).tail := by
        simp only [queueMessage]
        rw [if_pos h]
      rw [heq]
      simp only [List.length_tail, List.length_append, List.length_singleton]
      omega
    · have heq : queueMessage q m = q ++ [m] := by
        simp only [queueMessage]
        rw [if_neg h]
      rw [heq]
      simp only [List.length_append, List.length_singleton]
      simp only [List.length_append, List.length_singleton] at h
      omega
  · intro h
    simp only [queueMessage, List.length_append, List.length_singleton]
    rw [if_neg (by omega)]
  · intro h
    simp only [queueMessage, List.length_append, List.length_singleton]
    rw [if_pos (by omega)]
    cases q with
    | nil => simp [messageQueueSize] at h
    | cons a t => simp

/-- Witness for C5 (amended) on a concrete two-message queue. -/
theorem queueMessage_bounded_fifo_witness :
    (queueMessage
        [{ id := "m1", type := "subscribe", data := ["a"], timestamp := 0,
           retryCount := 0, maxRetries := 3 }]
        { id := "m2", type := "subscribe", data := ["b"], timestamp := 1,
          retryCount := 0, maxRetries := 3 }).length ≤ messageQueueSize
    ∧ queueMessage
        [{ id := "m1", type := "subscribe", data := ["a"], timestamp := 0,
           retryCount := 0, maxRetries := 3 }]
        { id := "m2", type := "subscribe", data := ["b"], timestamp := 1,
          retryCount := 0, maxRetries := 3 }
      = [{ id := "m1", type := "subscribe", data := ["a"], timestamp := 0,
           retryCount := 0, maxRetries := 3 },
         { id := "m2", type := "subscribe", data := ["b"], timestamp := 1,
           retryCount := 0, maxRetries := 3 }] := by
  have h := queueMessage_bounded_fifo
    [{ id := "m1", type := "subscribe", data := ["a"], timestamp := 0,
       retryCount := 0, maxRetries := 3 }]
    { id := "m2", type := "subscribe", data := ["b"], timestamp := 1,
      retryCount := 0, maxRetries := 3 }
    (by decide)
  exact ⟨h.1, (h.2.1 (by decide))⟩

/-- JS `Set.add`: append at the back unless already present (insertion
order, no duplicates). -/
def addToSet (l : List String) (x : String) : List String :=
  if x ∈ l then l else l ++ [x]

/-- Source `ids.forEach(id => set.add(id))`. -/
def addAllToSet (l : List String) (ids : List String) : List String :=
  ids.foldl addToSet l

theorem addToSet_nodup {l : List String} (h : l.Nodup) (x : String) :
    (addToSet l x).Nodup := by
  unfold addToSet
  split
  · exact h
  · next hx => simpa [List.nodup_append] using ⟨h, hx⟩

theorem mem_addToSet_left {l : List String} {y : String} (h : y ∈ l) (x : String) :
    y ∈ addToSet l x := by
  unfold addToSet
  split
  · exact h
  · exact List.mem_append_left _ h

theorem mem_addToSet_self (l : List String) (x : String) : x ∈ addToSet l x := by
  unfold addToSet
  split
  · assumption
  · exact List.mem_append_right _ (List.mem_singleton_self x)

theorem addAllToSet_nodup {l : List String} (h : l.Nodup) (ids : List String) :
    (addAllToSet l ids).Nodup := by
  induction ids generalizing l with
  | nil => exact h
  | cons a t ih => exact ih (addToSet_nodup h a)

theorem mem_addAllToSet_left {l : List String} {y : String} (h : y ∈ l)
    (ids : List String) : y ∈ addAllToSet l ids := by
  induction ids generalizing l with
  | nil => exact h
  | cons a t ih => exact ih (mem_addToSet_left h a)

theorem mem_addAllToSet_of_mem {ids : List String} {x : String} (h : x ∈ ids)
    (l : List String) : x ∈ addAllToSet l ids := by
  induction ids generalizing l with
  | nil => cases h
  | cons a t ih =>
    rcases List.mem_cons.mp h with rfl | hx
    · exact mem_addAllToSet_left (mem_addToSet_self l x) t
    · exact ih hx _

/-- The pieces of hook state touched by `subscribeToCorrelationIds` and the
auto-subscribe effect (variant 1, lines 786-838): connection flags, the client
id, the two id registries, the outbound queue and — for observation — the list
of `subscribe` envelopes actually written to the socket, each envelope being
its `data.correlationIds` array. -/
structure SubState where
  isConnected : Bool
  clientId : Option String
  socketOpen : Bool
  pendingSubscriptions : List String
  correlationIdSubscriptions : List String
  messageQueue : List QueuedMessage
  sentEnvelopes : List (List String)
deriving DecidableEq, Repr

/-- Source `subscribeToCorrelationIds` (variant 1, lines 786-827).  Every id is first
added to `correlationIdSubscriptionsRef`; while not connected (or without a
client id) the ids are only added to `pendingSubscriptionsRef`; when connected
with an open socket a single `subscribe` envelope carrying the argument array
is sent; when connected but the socket is not OPEN the message is queued via
`queueMessage` and the ids become pending again.  `qid`/`nowMs` stand for the
generated queue id and `Date.now()`. -/
def subscribeToCorrelationIds (st : SubState) (ids : List String)
    (qid : String) (nowMs : Nat) : SubState :=
  let st := { st with
    correlationIdSubscriptions := addAllToSet st.correlationIdSubscriptions ids }
  if ¬(st.isConnected = true ∧ st.clientId ≠ none) then
    { st with pendingSubscriptions := addAllToSet st.pendingSubscriptions ids }
  else if st.socketOpen then
    { st with sentEnvelopes := st.sentEnvelopes ++ [ids] }
  else
    { st with
      messageQueue := queueMessage st.messageQueue
        { id := qid, type := "subscribe", data := ids, timestamp := nowMs,
          retryCount := 0, maxRetries := 3 },
      pendingSubscriptions := addAllToSet st.pendingSubscriptions ids }

/-- The auto-subscribe effect (variant 1, lines 830-838): when connected with
a client id and a non-empty pending set, take all pending ids, clear the set,
and call `subscribeToCorrelationIds` on them. -/
def autoSubscribePending (st : SubState) (qid : String) (nowMs : Nat) : SubState :=
  if st.isConnected = true ∧ st.clientId ≠ none ∧ st.pendingSubscriptions ≠ [] then
    subscribeToCorrelationIds { st with pendingSubscriptions := [] }
      st.pendingSubscriptions qid nowMs
  else st

/-- C6: ids subscribed while disconnected are recorded as pending (with no
duplicates) and nothing is sent; when the connection becomes ready, the
auto-subscribe effect sends exactly one `subscribe` envelope containing
exactly the pending ids and clears the pending set, so running the effect
again sends nothing further. -/
theorem subscribe_while_disconnected_flushed_once
    (st : SubState) (ids : List String) (qid : String) (nowMs : Nat)
    (hdisc : st.isConnected = false)
    (hids : ids ≠ [])
    (hnodup : st.pendingSubscriptions.Nodup) :
    (∀ i ∈ ids,
        i ∈ (subscribeToCorrelationIds st ids qid nowMs).pendingSubscriptions)
    ∧ (subscribeToCorrelationIds st ids qid nowMs).sentEnvelopes = st.sentEnvelopes
    ∧ (subscribeToCorrelationIds st ids qid nowMs).pendingSubscriptions.Nodup
    ∧ (∀ (c qid2 : String) (t2 : Nat),
        (autoSubscribePending
            { subscribeToCorrelationIds st ids qid nowMs with
              isConnected := true, clientId := some c, socketOpen := true }
            qid2 t2).sentEnvelopes
          = st.sentEnvelopes
            ++ [(subscribeToCorrelationIds st ids qid nowMs).pendingSubscriptions]
        ∧ (autoSubscribePending
            { subscribeToCorrelationIds st ids qid nowMs with
              isConnected := true, clientId := some c, socketOpen := true }
            qid2 t2).pendingSubscriptions = []
        ∧ (∀ (qid3 : String) (t3 : Nat),
            autoSubscribePending
              (autoSubscribePending
                { subscribeToCorrelationIds st ids qid nowMs with
                  isConnected := true, clientId := some c, socketOpen := true }
                qid2 t2) qid3 t3
            = autoSubscribePending
                { subscribeToCorrelationIds st ids qid nowMs with
                  isConnected := true, clientId := some c, socketOpen := true }
                qid2 t2)) := by
  have hsub : subscribeToCorrelationIds st ids qid nowMs
      = { st with
          correlationIdSubscriptions := addAllToSet st.correlationIdSubscriptions ids,
          pendingSubscriptions := addAllToSet st.pendingSubscriptions ids } := by
    simp only [subscribeToCorrelationIds]
    rw [if_pos]
    simp [hdisc]
  rw [hsub]
  have hpend_mem : ∀ i ∈ ids, i ∈ addAllToSet st.pendingSubscriptions ids :=
    fun i hi => mem_addAllToSet_of_mem hi _
  have hpend_ne : addAllToSet st.pendingSubscriptions ids ≠ [] := by
    obtain ⟨i, hi⟩ := List.exists_mem_of_ne_nil ids hids
    exact List.ne_nil_of_mem (mem_addAllToSet_of_mem hi _)
  refine ⟨hpend_mem, rfl, addAllToSet_nodup hnodup ids, ?_⟩
  intro c qid2 t2
  have hflush : autoSubscribePending
      { st with
        correlationIdSubscriptions := addAllToSet st.correlationIdSubscriptions ids,
        pendingSubscriptions := addAllToSet st.pendingSubscriptions ids,
        isConnected := true, clientId := some c, socketOpen := true } qid2 t2
      = { st with
          correlationIdSubscriptions :=
            addAllToSet (addAllToSet st.correlationIdSubscriptions ids)
              (addAllToSet st.pendingSubscriptions ids),
          pendingSubscriptions := [],
          isConnected := true, clientId := some c, socketOpen := true,
          sentEnvelopes :=
            st.sentEnvelopes ++ [addAllToSet st.pendingSubscriptions ids] } := by
    simp only [autoSubscribePending]
    rw [if_pos (by exact ⟨by simp, by simp, hpend_ne⟩)]
    simp only [subscribeToCorrelationIds]
    rw [if_neg (by simp)]
    simp
  rw [hflush]
  refine ⟨rfl, rfl, ?_⟩
  intro qid3 t3
  simp [autoSubscribePending]

/-- Witness for C6: subscribing to `["a", "b"]` on a fresh disconnected client
records both ids as pending, and the first flush after connecting sends the
single envelope `[["a", "b"]]`. -/
theorem subscribe_while_disconnected_flushed_once_witness :
    ("a" ∈ (subscribeToCorrelationIds
        { isConnected := false, clientId := none, socketOpen := false,
          pendingSubscriptions := [], correlationIdSubscriptions := [],
          messageQueue := [], sentEnvelopes := [] } ["a", "b"] "q1" 0).pendingSubscriptions)
    ∧ (autoSubscribePending
        { subscribeToCorrelationIds
            { isConnected := false, clientId := none, socketOpen := false,
              pendingSubscriptions := [], correlationIdSubscriptions := [],
              messageQueue := [], sentEnvelopes := [] } ["a", "b"] "q1" 0 with
          isConnected := true, clientId := some "c1", socketOpen := true }
        "q2" 1).sentEnvelopes
      = [(subscribeToCorrelationIds
            { isConnected := false, clientId := none, socketOpen := false,
              pendingSubscriptions := [], correlationIdSubscriptions := [],
              messageQueue := [], sentEnvelopes := [] } ["a", "b"] "q1" 0).pendingSubscriptions] := by
  have h := subscribe_while_disconnected_flushed_once
    { isConnected := false, clientId := none, socketOpen := false,
      pendingSubscriptions := [], correlationIdSubscriptions := [],
      messageQueue := [], sentEnvelopes := [] } ["a", "b"] "q1" 0
    rfl (by decide) (by decide)
  exact ⟨h.1 "a" (by decide), (h.2.2.2 "c1" "q2" 1).1⟩

/-- Source `connectionHealth` values (part_008 line 45). -/
inductive Health
  | healthy
  | degraded
  | unhealthy
deriving DecidableEq, Repr

/-- JS `x || default` on an optional string: an absent or empty (falsy)
string picks the default. -/
def jsStrOr (x : Option String) (d : String) : String :=
  match x with
  | some v => if v = "" then d else v
  | none => d

/-- JS template-literal text of a possibly-undefined number. -/
def jsNumText : Option Int → String
  | some n => toString n
  | none => "undefined"

/-- JS template-literal text of a possibly-undefined string. -/
def jsStrText : Option String → String
  | some v => v
  | none => "undefined"

/-- The `app` object optionally nested in a message's `data` (used by
`app.created` and `app.bundle.completed`). -/
structure AppObj where
  success : Option Bool
  error : Option String
  message : Option String
deriving DecidableEq, Repr

/-- The `data` object of an inbound envelope; every field is optional
(an absent JS property is `none`). -/
structure MsgData where
  progress : Option Int
  stage : Option String
  message : Option String
  success : Option Bool
  error : Option String
  clientId : Option String
  app : Option AppObj
deriving DecidableEq, Repr

/-- An inbound transport event: either a JSON object carrying a `type`
discriminator, or a payload on which `JSON.parse` throws. -/
inductive InboundMsg
  | parsed (type : String) (correlationId : String) (data : Option MsgData)
      (timestamp : Option String)
  | malformed (raw : String)
deriving DecidableEq, Repr

/-- Source `payload.success` after the spread `{...message.data, ...(message.data?.app
|| {})}` (lines 639-642): a property of `app` wins when present. -/
def mergedSuccess (data : Option MsgData) : Option Bool :=
  match data with
  | none => none
  | some d =>
    match d.app with
    | some a => a.success <|> d.success
    | none => d.success

/-- Source `payload.error` after the same spread. -/
def mergedError (data : Option MsgData) : Option String :=
  match data with
  | none => none
  | some d =>
    match d.app with
    | some a => a.error <|> d.error
    | none => d.error

/-- Source `payload.message` after the same spread. -/
def mergedMessage (data : Option MsgData) : Option String :=
  match data with
  | none => none
  | some d =>
    match d.app with
    | some a => a.message <|> d.message
    | none => d.message

/-- The record stored for `app.created` / `app.created.error`
(lines 541-548): status FAILED exactly for the error type. -/
def appCreatedRecord (type cid : String) (data : Option MsgData)
    (ts : Option String) (nowIso : String) : StatusRecord :=
  { correlationId := cid,
    status := if type = "app.created.error" then WSStatus.FAILED
              else WSStatus.COMPLETED,
    message := some (jsStrOr (data.bind MsgData.message) "Operation completed"),
    error := data.bind MsgData.error,
    timestamp := jsStrOr ts nowIso }

/-- The record stored for `app.response.permanentDelete[.sse]`
(lines 557-564): status COMPLETED exactly when `data?.success` is truthy. -/
def permanentDeleteRecord (cid : String) (data : Option MsgData)
    (ts : Option String) (nowIso : String) : StatusRecord :=
  { correlationId := cid,
    status := if data.bind MsgData.success = some true then WSStatus.COMPLETED
              else WSStatus.FAILED,
    message := some (jsStrOr (data.bind MsgData.message)
      "Permanent delete operation completed"),
    error := data.bind MsgData.error,
    timestamp := jsStrOr ts nowIso }

/-- The record stored for `app.creation.progress` (lines 573-583):
always IN_PROGRESS, message `"${progress}% - ${message}"`. -/
def creationProgressRecord (cid : String) (d : MsgData)
    (ts : Option String) (nowIso : String) : StatusRecord :=
  { correlationId := cid,
    status := WSStatus.IN_PROGRESS,
    message := some (jsNumText d.progress ++ "% - " ++ jsStrText d.message),
    error := none,
    timestamp := jsStrOr ts nowIso }

/-- The record stored for the four build/bundle progress types
(lines 596-606, 619-630, 675-685, 698-708): COMPLETED when
`data.progress === 100`, IN_PROGRESS otherwise.  The branches differ only in
the default `stage` stored in the unmodelled opaque payload. -/
def buildProgressRecord (cid : String) (d : MsgData)
    (ts : Option String) (nowIso : String) : StatusRecord :=
  { correlationId := cid,
    status := if d.progress = some 100 then WSStatus.COMPLETED
              else WSStatus.IN_PROGRESS,
    message := some (jsNumText d.progress ++ "% - " ++ jsStrText d.message),
    error := none,
    timestamp := jsStrOr ts nowIso }

/-- The record stored for `app.bundle.completed` (lines 639-661):
`isSuccess = payload.success !== false`; FAILED exactly when the merged
success flag is explicitly `false`; the error is kept only on failure. -/
def bundleCompletedRecord (cid : String) (data : Option MsgData)
    (ts : Option String) (nowIso : String) : StatusRecord :=
  { correlationId := cid,
    status := if mergedSuccess data = some false then WSStatus.FAILED
              else WSStatus.COMPLETED,
    message := some (jsStrOr (mergedMessage data) "Bundle generation completed"),
    error := if mergedSuccess data = some false then mergedError data else none,
    timestamp := jsStrOr ts nowIso }

/-- The pieces of hook state touched by variant 1's `socket.onmessage`
(lines 512-721). -/
structure MsgState where
  statusUpdates : StatusStore
  clientId : Option String
  heartbeatTimeoutArmed : Bool
  connectionHealth : Health
  isConnected : Bool
  messagesReceived : Nat
deriving DecidableEq, Repr

/-- Variant 1's `socket.onmessage` handler (lines 512-721).  The
messages-received counter is incremented before the `try` (line 515); a
`JSON.parse` failure, and a runtime error from reading a field of an absent
`data` object, land in the `catch` (line 718) which only logs, so those paths
leave everything but the counter unchanged.  Branch order follows the source;
branches that only log (`authenticated`, `error`, unknown types) change
nothing. -/
def handleMessage (s : MsgState) (nowIso : String) (m : InboundMsg) : MsgState :=
  let s := { s with messagesReceived := s.messagesReceived + 1 }
  match m with
  | .malformed _ => s
  | .parsed ty cid data ts =>
    if ty = "pong" then
      { s with heartbeatTimeoutArmed := false, connectionHealth := Health.healthy }
    else if ty = "connection_established" then
      match data with
      | none => s
      | some d => { s with clientId := d.clientId }
    else if ty = "authenticated" then s
    else if ty = "app.created" ∨ ty = "app.created.error" then
      { s with statusUpdates :=
          s.statusUpdates.set cid (appCreatedRecord ty cid data ts nowIso) }
    else if ty = "app.response.permanentDelete"
        ∨ ty = "app.response.permanentDelete.sse" then
      { s with statusUpdates :=
          s.statusUpdates.set cid (permanentDeleteRecord cid data ts nowIso) }
    else if ty = "app.creation.progress" then
      match data with
      | none => s
      | some d =>
        { s with statusUpdates :=
            s.statusUpdates.set cid (creationProgressRecord cid d ts nowIso) }
    else if ty = "app.buildBundle.progress" then
      match data with
      | none => s
      | some d =>
        { s with statusUpdates :=
            s.statusUpdates.set cid (buildProgressRecord cid d ts nowIso) }
    else if ty = "app.bundle.progress" then
      match data with
      | none => s
      | some d =>
        { s with statusUpdates :=
            s.statusUpdates.set cid (buildProgressRecord cid d ts nowIso) }
    else if ty = "app.bundle.completed" then
      { s with statusUpdates :=
          s.statusUpdates.set cid (bundleCompletedRecord cid data ts nowIso) }
    else if ty = "app.buildDebug.progress" then
      match data with
      | none => s
      | some d =>
        { s with statusUpdates :=
            s.statusUpdates.set cid (buildProgressRecord cid d ts nowIso) }
    else if ty = "app.buildRelease.progress" then
      match data with
      | none => s
      | some d =>
        { s with statusUpdates :=
            s.statusUpdates.set cid (buildProgressRecord cid d ts nowIso) }
    else if ty = "error" then s
    else s

/-- The `type` values variant 1's `onmessage` dispatches on (lines 522-717). -/
def recognizedInboundTypes : List String :=
  ["pong", "connection_established", "authenticated", "app.created",
   "app.created.error", "app.response.permanentDelete",
   "app.response.permanentDelete.sse", "app.creation.progress",
   "app.buildBundle.progress", "app.bundle.progress", "app.bundle.completed",
   "app.buildDebug.progress", "app.buildRelease.progress", "error"]

/-- Lexicographic comparison of character lists. -/
def charListLe : List Char → List Char → Bool
  | [], _ => true
  | _ :: _, [] => false
  | a :: as, b :: bs =>
    if a < b then true else if b < a then false else charListLe as bs

/-- Equal-or-older comparison of ISO-8601 timestamp strings: lexicographic
string order, which on such timestamps coincides with chronological order
(and with the JS `<=` operator on the wire strings). -/
def timestampLe (a b : String) : Bool :=
  charListLe a.data b.data

/-- A concrete COMPLETED (terminal) record with timestamp
2024-01-02, for the C1 counterexample. -/
def c1DoneRecord : StatusRecord :=
  { correlationId := "op-1", status := WSStatus.COMPLETED,
    message := some "Operation completed", error := none,
    timestamp := "2024-01-02T00:00:00Z" }

/-- A concrete handler state whose store holds `c1DoneRecord`. -/
def c1State : MsgState :=
  { statusUpdates := [("op-1", c1DoneRecord)], clientId := some "client-1",
    heartbeatTimeoutArmed := false, connectionHealth := Health.healthy,
    isConnected := true, messagesReceived := 7 }

/-- The `data` of a stale progress message for the C1 counterexample. -/
def c1ProgressData : MsgData :=
  { progress := some 42, stage := some "building",
    message := some "Building app", success := none, error := none,
    clientId := none, app := none }

/-- C1 counterexample: the store holds a terminal COMPLETED record (timestamp
2024-01-02); replaying an `app.creation.progress` message for the same
correlation id with the strictly older timestamp 2024-01-01 replaces it with
an IN_PROGRESS record — the observable status regresses. -/
theorem terminal_status_regression_counterexample :
    ((c1State.statusUpdates.get "op-1").map StatusRecord.status
        = some WSStatus.COMPLETED)
    ∧ (timestampLe "2024-01-01T00:00:00Z" "2024-01-02T00:00:00Z" = true)
    ∧ ("2024-01-01T00:00:00Z" ≠ "2024-01-02T00:00:00Z")
    ∧ (((handleMessage c1State "2024-01-03T00:00:00Z"
          (InboundMsg.parsed "app.creation.progress" "op-1" (some c1ProgressData)
            (some "2024-01-01T00:00:00Z"))).statusUpdates.get "op-1").map
          StatusRecord.status = some WSStatus.IN_PROGRESS) := by
  exact ⟨rfl, by decide, by decide, rfl⟩

/-- C1 (amended): the cited message handlers are last-writer-wins — even when
the stored record for a correlation id is terminal (COMPLETED or FAILED) and
the incoming message is equal-or-older by timestamp, the handler
unconditionally replaces the stored record with the record decoded from the
message, which for a progress message has status IN_PROGRESS. -/
theorem terminal_status_overwritten
    (s : MsgState) (nowIso cid : String) (d : MsgData) (ts : Option String)
    (r : StatusRecord)
    (hstored : s.statusUpdates.get cid = some r)
    (hterminal : r.status = WSStatus.COMPLETED ∨ r.status = WSStatus.FAILED)
    (hstale : timestampLe (jsStrOr ts nowIso) r.timestamp = true) :
    (handleMessage s nowIso
        (InboundMsg.parsed "app.creation.progress" cid (some d) ts)).statusUpdates.get cid
      = some (creationProgressRecord cid d ts nowIso)
    ∧ (creationProgressRecord cid d ts nowIso).status = WSStatus.IN_PROGRESS := by
  constructor
  · have hred : handleMessage s nowIso
        (InboundMsg.parsed "app.creation.progress" cid (some d) ts)
        = { s with messagesReceived := s.messagesReceived + 1,
                   statusUpdates :=
                     s.statusUpdates.set cid (creationProgressRecord cid d ts nowIso) } := rfl
    rw [hred]
    exact StatusStore.get_set_self _ _ _
  · rfl

/-- Witness for C1 (amended) at the concrete counterexample state. -/
theorem terminal_status_overwritten_witness :
    (c1State.statusUpdates.get "op-1" = some c1DoneRecord)
    ∧ (c1DoneRecord.status = WSStatus.COMPLETED ∨ c1DoneRecord.status = WSStatus.FAILED)
    ∧ (timestampLe (jsStrOr (some "2024-01-01T00:00:00Z") "2024-01-03T00:00:00Z")
        c1DoneRecord.timestamp = true)
    ∧ (handleMessage c1State "2024-01-03T00:00:00Z"
        (InboundMsg.parsed "app.creation.progress" "op-1" (some c1ProgressData)
          (some "2024-01-01T00:00:00Z"))).statusUpdates.get "op-1"
      = some (creationProgressRecord "op-1" c1ProgressData
          (some "2024-01-01T00:00:00Z") "2024-01-03T00:00:00Z") := by
  have h := terminal_status_overwritten c1State "2024-01-03T00:00:00Z" "op-1"
    c1ProgressData (some "2024-01-01T00:00:00Z") c1DoneRecord rfl
    (Or.inl rfl) (by decide)
  exact ⟨rfl, Or.inl rfl, by decide, h.1⟩

/-- C2 (amended): statuses assigned by the inbound decoder.
`app.creation.progress` is always stored IN_PROGRESS, but the four
build/bundle progress types are stored COMPLETED when the percentage is
exactly 100 (IN_PROGRESS otherwise); `app.created` → COMPLETED,
`app.created.error` → FAILED; a permanent-delete completion is COMPLETED
exactly when its success flag is `true` (FAILED otherwise, even without an
error); `app.bundle.completed` is FAILED exactly when the merged success flag
is explicitly `false` — an error field alone does not produce FAILED. -/
theorem decode_status_normalization
    (s : MsgState) (nowIso cid : String) (d : MsgData) (ts : Option String) :
    (((handleMessage s nowIso
          (InboundMsg.parsed "app.creation.progress" cid (some d) ts)).statusUpdates.get
          cid).map StatusRecord.status = some WSStatus.IN_PROGRESS)
    ∧ (∀ ty, (ty = "app.buildBundle.progress" ∨ ty = "app.bundle.progress"
          ∨ ty = "app.buildDebug.progress" ∨ ty = "app.buildRelease.progress") →
        ((handleMessage s nowIso
            (InboundMsg.parsed ty cid (some d) ts)).statusUpdates.get cid).map
            StatusRecord.status
          = some (if d.progress = some 100 then WSStatus.COMPLETED
                  else WSStatus.IN_PROGRESS))
    ∧ (((handleMessage s nowIso
          (InboundMsg.parsed "app.created" cid (some d) ts)).statusUpdates.get
          cid).map StatusRecord.status = some WSStatus.COMPLETED)
    ∧ (((handleMessage s nowIso
          (InboundMsg.parsed "app.created.error" cid (some d) ts)).statusUpdates.get
          cid).map StatusRecord.status = some WSStatus.FAILED)
    ∧ (((handleMessage s nowIso
          (InboundMsg.parsed "app.response.permanentDelete" cid (some d)
            ts)).statusUpdates.get cid).map StatusRecord.status
        = some (if d.success = some true then WSStatus.COMPLETED else WSStatus.FAILED))
    ∧ (((handleMessage s nowIso
          (InboundMsg.parsed "app.bundle.completed" cid (some d)
            ts)).statusUpdates.get cid).map StatusRecord.status
        = some (if mergedSuccess (some d) = some false then WSStatus.FAILED
                else WSStatus.COMPLETED)) := by
  refine ⟨?_, ?_, ?_, ?_, ?_, ?_⟩
  · have hred : handleMessage s nowIso
        (InboundMsg.parsed "app.creation.progress" cid (some d) ts)
        = { s with messagesReceived := s.messagesReceived + 1,
                   statusUpdates :=
                     s.statusUpdates.set cid (creationProgressRecord cid d ts nowIso) } := rfl
    rw [hred, StatusStore.get_set_self]
    rfl
  · intro ty hty
    have hred : handleMessage s nowIso (InboundMsg.parsed ty cid (some d) ts)
        = { s with messagesReceived := s.messagesReceived + 1,
                   statusUpdates :=
                     s.statusUpdates.set cid (buildProgressRecord cid d ts nowIso) } := by
      rcases hty with rfl | rfl | rfl | rfl <;> rfl
    rw [hred, StatusStore.get_set_self]
    rfl
  · have hred : handleMessage s nowIso
        (InboundMsg.parsed "app.created" cid (some d) ts)
        = { s with messagesReceived := s.messagesReceived + 1,
                   statusUpdates :=
                     s.statusUpdates.set cid
                       (appCreatedRecord "app.created" cid (some d) ts nowIso) } := rfl
    rw [hred, StatusStore.get_set_self]
    rfl
  · have hred : handleMessage s nowIso
        (InboundMsg.parsed "app.created.error" cid (some d) ts)
        = { s with messagesReceived := s.messagesReceived + 1,
                   statusUpdates :=
                     s.statusUpdates.set cid
                       (appCreatedRecord "app.created.error" cid (some d) ts nowIso) } := rfl
    rw [hred, StatusStore.get_set_self]
    rfl
  · have hred : handleMessage s nowIso
        (InboundMsg.parsed "app.response.permanentDelete" cid (some d) ts)
        = { s with messagesReceived := s.messagesReceived + 1,
                   statusUpdates :=
                     s.statusUpdates.set cid
                       (permanentDeleteRecord cid (some d) ts nowIso) } := rfl
    rw [hred, StatusStore.get_set_self]
    rfl
  · have hred : handleMessage s nowIso
        (InboundMsg.parsed "app.bundle.completed" cid (some d) ts)
        = { s with messagesReceived := s.messagesReceived + 1,
                   statusUpdates :=
                     s.statusUpdates.set cid
                       (bundleCompletedRecord cid (some d) ts nowIso) } := rfl
    rw [hred, StatusStore.get_set_self]
    rfl

/-- The `data` of a 100 % build-progress message for the C2 counterexample. -/
def c2Progress100Data : MsgData :=
  { progress := some 100, stage := some "Building AAB",
    message := some "Done", success := none, error := none,
    clientId := none, app := none }

/-- The `data` of a bundle-completion message carrying an error but no
explicit `success: false`, for the C2 counterexample. -/
def c2ErrorData : MsgData :=
  { progress := none, stage := none, message := some "finished",
    success := none, error := some "boom", clientId := none, app := none }

/-- An empty handler state for the C2 counterexample. -/
def c2State : MsgState :=
  { statusUpdates := [], clientId := some "client-1",
    heartbeatTimeoutArmed := false, connectionHealth := Health.healthy,
    isConnected := true, messagesReceived := 0 }

/-- C2 counterexample: a progress-style payload (percentage 100 plus stage) is
stored COMPLETED, not IN_PROGRESS; and a completion payload carrying an error
but no explicit `success: false` is stored COMPLETED, not FAILED. -/
theorem decode_status_normalization_counterexample :
    (((handleMessage c2State "t0"
          (InboundMsg.parsed "app.buildBundle.progress" "op-2"
            (some c2Progress100Data) none)).statusUpdates.get "op-2").map
          StatusRecord.status = some WSStatus.COMPLETED)
    ∧ (c2Progress100Data.progress = some 100
        ∧ c2Progress100Data.stage = some "Building AAB")
    ∧ (((handleMessage c2State "t0"
          (InboundMsg.parsed "app.bundle.completed" "op-3" (some c2ErrorData)
            none)).statusUpdates.get "op-3").map StatusRecord.status
        = some WSStatus.COMPLETED)
    ∧ (c2ErrorData.error = some "boom")
    ∧ (WSStatus.COMPLETED ≠ WSStatus.IN_PROGRESS)
    ∧ (WSStatus.COMPLETED ≠ WSStatus.FAILED) := by
  exact ⟨rfl, ⟨rfl, rfl⟩, rfl, rfl, by decide, by decide⟩

/-- Witness for C2 (amended) on concrete data with progress 42. -/
theorem decode_status_normalization_witness :
    (((handleMessage c2State "t0"
          (InboundMsg.parsed "app.creation.progress" "op-4"
            (some c1ProgressData) none)).statusUpdates.get "op-4").map
          StatusRecord.status = some WSStatus.IN_PROGRESS)
    ∧ (((handleMessage c2State "t0"
          (InboundMsg.parsed "app.bundle.progress" "op-4"
            (some c1ProgressData) none)).statusUpdates.get "op-4").map
          StatusRecord.status
        = some (if c1ProgressData.progress = some 100 then WSStatus.COMPLETED
                else WSStatus.IN_PROGRESS)) := by
  have h := decode_status_normalization c2State "t0" "op-4" c1ProgressData none
  exact ⟨h.1, h.2.1 "app.bundle.progress" (Or.inr (Or.inl rfl))⟩

/-- C8: an inbound envelope whose `type` is not recognized, and an inbound
payload on which `JSON.parse` throws, leave everything unchanged except the
messages-received counter — in particular the Status Store is untouched, the
client id and connection flag keep their values, and the (total) handler
returns normally instead of propagating an error. -/
theorem unknown_or_malformed_is_noop
    (s : MsgState) (nowIso : String) (m : InboundMsg)
    (h : match m with
         | InboundMsg.malformed _ => True
         | InboundMsg.parsed ty _ _ _ => ty ∉ recognizedInboundTypes) :
    handleMessage s nowIso m
      = { s with messagesReceived := s.messagesReceived + 1 } := by
  cases m with
  | malformed raw => rfl
  | parsed ty cid data ts =>
    simp only [recognizedInboundTypes, List.mem_cons, List.not_mem_nil,
      or_false] at h
    push_neg at h
    obtain ⟨h1, h2, h3, h4, h5, h6, h7, h8, h9, h10, h11, h12, h13, h14⟩ := h
    simp [handleMessage, h1, h2, h3, h4, h5, h6, h7, h8, h9, h10, h11, h12,
      h13, h14]

/-- Witness for C8: a concrete envelope with the unknown type
`app.unknown.kind` only bumps the counter of a concrete state. -/
theorem unknown_or_malformed_is_noop_witness :
    handleMessage c1State "t0"
        (InboundMsg.parsed "app.unknown.kind" "op-9" none none)
      = { c1State with messagesReceived := c1State.messagesReceived + 1 } := by
  exact unknown_or_malformed_is_noop c1State "t0"
    (InboundMsg.parsed "app.unknown.kind" "op-9" none none) (by decide)

/-- The connection-lifecycle state owned by variant 1 of the hook (lines
109-144): timer handles are modelled as `Bool` "armed" flags, the socket ref
as a `Bool` ("a socket object is held"). -/
structure ConnState where
  socketHeld : Bool
  reconnectTimeout : Bool
  connectionTimeout : Bool
  circuitBreakerTimeout : Bool
  heartbeatInterval : Bool
  heartbeatTimeout : Bool
  isConnected : Bool
  isConnecting : Bool
  connectionError : Option String
  connectionHealth : Health
  reconnectAttempts : Nat
  lastDisconnectedAt : Option String
deriving DecidableEq, Repr

/-- Source `stopHeartbeat` (variant 1, lines 315-325): clear the heartbeat interval
and the pong-timeout. -/
def stopHeartbeat (s : ConnState) : ConnState :=
  { s with heartbeatInterval := false, heartbeatTimeout := false }

/-- Source `disconnect` (variant 1, lines 362-399): clear the reconnect, connection
and circuit-breaker cool-down timers, stop the heartbeat, close and null the
socket, reset the connection flags and error, mark health unhealthy, zero the
attempt counter, and stamp `lastDisconnectedAt` with the current time
(`now`). -/
def disconnect (now : String) (s : ConnState) : ConnState :=
  let s := { s with reconnectTimeout := false }
  let s := { s with connectionTimeout := false }
  let s := { s with circuitBreakerTimeout := false }
  let s := stopHeartbeat s
  let s := { s with socketHeld := false }
  { s with isConnected := false, isConnecting := false, connectionError := none,
           connectionHealth := Health.unhealthy, reconnectAttempts := 0,
           lastDisconnectedAt := some now }

/-- C9: from every state, `disconnect` cancels all five pending timers
(reconnect backoff, connection timeout, circuit-breaker cool-down, heartbeat
interval, heartbeat timeout), closes and clears the socket, and is idempotent:
a second `disconnect` (at any later time) produces the same state the second
call would have produced alone — in particular, when the clock has not moved,
calling it again changes nothing. -/
theorem disconnect_idempotent_cancels_timers (s : ConnState) (t t2 : String) :
    ((disconnect t s).reconnectTimeout = false)
    ∧ ((disconnect t s).connectionTimeout = false)
    ∧ ((disconnect t s).circuitBreakerTimeout = false)
    ∧ ((disconnect t s).heartbeatInterval = false)
    ∧ ((disconnect t s).heartbeatTimeout = false)
    ∧ ((disconnect t s).socketHeld = false)
    ∧ (disconnect t (disconnect t2 s) = disconnect t s)
    ∧ (disconnect t (disconnect t s) = disconnect t s) := by
  exact ⟨rfl, rfl, rfl, rfl, rfl, rfl, rfl, rfl⟩

/-- Lifecycle of the single socket slot (`socketRef`): `idle` = no socket
held; `connecting` = readyState CONNECTING; `opened` = readyState OPEN;
`failed` = `error` fired or `close()` was called, so per the WebSocket
contract `onopen` can no longer fire for this socket. -/
inductive SockState
  | idle
  | connecting
  | opened
  | failed
deriving DecidableEq, Repr

/-- The state underlying variant 1's circuit breaker and connect guard:
`circuitBreakerFailuresRef`, `isCircuitBreakerOpenRef`,
`circuitBreakerTimeoutRef` (as an armed flag), the socket slot, the
`isConnecting` / `isConnected` flags and whether the heartbeat machinery is
armed. -/
structure CBState where
  failures : Nat
  isOpen : Bool
  cooldownArmed : Bool
  sock : SockState
  isConnecting : Bool
  isConnected : Bool
  hbArmed : Bool
deriving DecidableEq, Repr

/-- Source `handleCircuitBreakerFailure` (variant 1, lines 189-206): increment the
failure count; when it reaches `circuitBreakerThreshold`, open the breaker and
arm the cool-down timer. -/
def handleCircuitBreakerFailure (s : CBState) : CBState :=
  let f := s.failures + 1
  if circuitBreakerThreshold ≤ f then
    { s with failures := f, isOpen := true, cooldownArmed := true }
  else
    { s with failures := f }

/-- Source `handleCircuitBreakerSuccess` (variant 1, lines 208-218): decrement a
positive failure count by one and close the breaker. -/
def handleCircuitBreakerSuccess (s : CBState) : CBState :=
  let f := if 0 < s.failures then s.failures - 1 else s.failures
  { s with failures := f, isOpen := false }

/-- The guard prefix of `connect` (variant 1, lines 404-443): a no-op while
already connecting/connected, and a no-op — touching nothing — while the
circuit breaker is open (lines 420-424); otherwise mark connecting and create
the transport.  The unmount and missing-user early returns (also pure no-ops)
are not modelled. -/
def connect (s : CBState) : CBState :=
  if s.isConnecting = true ∨ s.isConnected = true then s
  else if s.isOpen = true then s
  else { s with isConnecting := true, sock := SockState.connecting }

/-- The serialized callbacks of variant 1 that touch the circuit breaker or
the socket slot, each with the guard under which the source can run it. -/
inductive Ev
  | connectCall
  | sockOpen
  | sockError
  | connTimeout
  | sockClose
  | sockCloseMax
  | hbTimeout
  | validateHealthy
  | cooldownFire
  | disconnectCall
deriving DecidableEq, Repr

/-- One step of the connection system: the effect of each callback, transcribed
from variant 1.  `sockOpen` = `socket.onopen` (458-510, ends in
`handleCircuitBreakerSuccess` and `startHeartbeat`); `sockError` =
`socket.onerror` (723-732); `connTimeout` = the connection timeout firing while
still CONNECTING (448-456, closes the socket and records a failure);
`sockClose` / `sockCloseMax` = `socket.onclose` with reconnect attempts
remaining / exhausted (734-772); `hbTimeout` = ping failure or pong timeout
(300-310); `validateHealthy` = the healthy path of `validateConnection`
(330-357, guarded by an OPEN socket and a closed breaker); `cooldownFire` =
the breaker cool-down timer (199-204); `disconnectCall` = `disconnect`
(362-399, clears the cool-down timer but not the breaker counters).
A callback whose guard does not hold cannot run and stutters. -/
def step (e : Ev) (s : CBState) : CBState :=
  match e with
  | Ev.connectCall => connect s
  | Ev.sockOpen =>
    if s.sock = SockState.connecting then
      handleCircuitBreakerSuccess
        { s with sock := SockState.opened, isConnected := true,
                 isConnecting := false, hbArmed := true }
    else s
  | Ev.sockError =>
    if s.sock = SockState.connecting ∨ s.sock = SockState.opened then
      handleCircuitBreakerFailure { s with sock := SockState.failed }
    else s
  | Ev.connTimeout =>
    if s.sock = SockState.connecting then
      handleCircuitBreakerFailure
        { s with sock := SockState.failed, isConnecting := false }
    else s
  | Ev.sockClose =>
    if s.sock ≠ SockState.idle then
      { s with sock := SockState.idle, isConnected := false,
               isConnecting := false, hbArmed := false }
    else s
  | Ev.sockCloseMax =>
    if s.sock ≠ SockState.idle then
      handleCircuitBreakerFailure
        { s with sock := SockState.idle, isConnected := false,
                 isConnecting := false, hbArmed := false }
    else s
  | Ev.hbTimeout =>
    if s.hbArmed = true then handleCircuitBreakerFailure s else s
  | Ev.validateHealthy =>
    if s.sock = SockState.opened ∧ s.isOpen = false then
      handleCircuitBreakerSuccess s
    else s
  | Ev.cooldownFire =>
    if s.cooldownArmed = true then
      { s with cooldownArmed := false, isOpen := false, failures := 0 }
    else s
  | Ev.disconnectCall =>
    { s with cooldownArmed := false, hbArmed := false, sock := SockState.idle,
             isConnected := false, isConnecting := false }

/-- The hook's initial state (lines 109-144): no failures, breaker closed, no
socket, no timers. -/
def initState : CBState :=
  { failures := 0, isOpen := false, cooldownArmed := false,
    sock := SockState.idle, isConnecting := false, isConnected := false,
    hbArmed := false }

/-- States the connection system can actually be in. -/
inductive Reachable : CBState → Prop
  | init : Reachable initState
  | next (e : Ev) {s : CBState} : Reachable s → Reachable (step e s)

/-- Inductive invariant: the breaker is open exactly when the failure count
has reached the threshold, a CONNECTING socket exists only with a closed
breaker and at most threshold-minus-one failures, and the heartbeat runs only
while connected (hence never alongside a CONNECTING socket). -/
def Inv (s : CBState) : Prop :=
  (s.isOpen = true ↔ circuitBreakerThreshold ≤ s.failures)
  ∧ (s.sock = SockState.connecting →
      s.isOpen = false ∧ s.failures + 1 ≤ circuitBreakerThreshold)
  ∧ (s.hbArmed = true → s.isConnected = true)
  ∧ (s.isConnected = true → s.sock ≠ SockState.connecting)

theorem Inv_initState : Inv initState := by
  simp [Inv, initState, circuitBreakerThreshold]

theorem Inv_step (e : Ev) (s : CBState) (h : Inv s) : Inv (step e s) := by
  obtain ⟨h1, h2, h3, h4⟩ := h
  cases e <;>
    simp only [step, connect, handleCircuitBreakerFailure,
      handleCircuitBreakerSuccess, Inv, circuitBreakerThreshold] <;>
    (try split_ifs) <;>
    refine ⟨?_, ?_, ?_, ?_⟩ <;>
    simp_all [circuitBreakerThreshold] <;>
    omega

theorem Reachable_Inv (s : CBState) (h : Reachable s) : Inv s := by
  induction h with
  | init => exact Inv_initState
  | next e hr ih => exact Inv_step e _ ih

/-- C3: in every reachable state of the connection system, the circuit breaker
is open exactly when the count of consecutive recorded failures has reached
`circuitBreakerThreshold` (5); and every `connect` call made while the breaker
is open returns the state unchanged — no transport is created and no
connection state is mutated. -/
theorem circuitBreaker_open_iff_threshold (s : CBState) (h : Reachable s) :
    (s.isOpen = true ↔ circuitBreakerThreshold ≤ s.failures)
    ∧ (s.isOpen = true → connect s = s) := by
  refine ⟨(Reachable_Inv s h).1, ?_⟩
  intro hopen
  by_cases hc : s.isConnecting = true ∨ s.isConnected = true
  · simp [connect, hc]
  · simp [connect, hc, hopen]

/-- A reachable state with an open breaker: five connect attempts each ended
by a connection timeout (with socket-close events in between). -/
def cbWitnessState : CBState :=
  step Ev.connTimeout (step Ev.connectCall (step Ev.sockClose
    (step Ev.connTimeout (step Ev.connectCall (step Ev.sockClose
      (step Ev.connTimeout (step Ev.connectCall (step Ev.sockClose
        (step Ev.connTimeout (step Ev.connectCall (step Ev.sockClose
          (step Ev.connTimeout (step Ev.connectCall initState)))))))))))))

/-- Witness for C3: after five recorded connect failures the breaker is open
and a further `connect` call leaves the state untouched. -/
theorem circuitBreaker_open_iff_threshold_witness :
    cbWitnessState.isOpen = true ∧ connect cbWitnessState = cbWitnessState := by
  have hr : Reachable cbWitnessState :=
    Reachable.next Ev.connTimeout (Reachable.next Ev.connectCall
      (Reachable.next Ev.sockClose (Reachable.next Ev.connTimeout
        (Reachable.next Ev.connectCall (Reachable.next Ev.sockClose
          (Reachable.next Ev.connTimeout (Reachable.next Ev.connectCall
            (Reachable.next Ev.sockClose (Reachable.next Ev.connTimeout
              (Reachable.next Ev.connectCall (Reachable.next Ev.sockClose
                (Reachable.next Ev.connTimeout (Reachable.next Ev.connectCall
                  Reachable.init)))))))))))))
  have h := circuitBreaker_open_iff_threshold cbWitnessState hr
  exact ⟨h.1.mpr (by decide), h.2 (h.1.mpr (by decide))⟩

end PreVue
